import Mathlib

/-
  Verification of the harsark kernel core against its natural-language
  specification.

  The Rust sources are embedded shallowly:
  * machine integers (`u32`, `i32`, `usize`) become `Nat`/`Int` with explicit
    reductions modulo 2^32 where the machine width matters;
  * fixed-size arrays become `List`s (with an explicit length invariant) or
    total functions on indices;
  * fallible operations return `Except KernelError`, and a Rust panic
    (out-of-bounds indexing, `.unwrap()` on `None`) is modelled by an outer
    `Option` whose `none` value means "the call panics";
  * the mutable globals (`all_tasks`, `os_curr_task`, `os_next_task`, the
    PendSV pending bit) become explicit state passed in and out; writes to the
    `os_curr_task`/`os_next_task` slots and the raising of PendSV are returned
    as an effect record.
-/

set_option linter.unusedVariables false

namespace Harsark

/-- Kernel error codes returned by fallible operations (`errors.rs` is not in
`src/`; the variants are those used by the embedded sources and listed in §7 of
the specification). -/
inductive KernelError where
  | AccessDenied
  | DoesNotExist
  | StackTooSmall
  | LimitExceeded
  | Empty
  | NotFound
deriving DecidableEq, Repr

/-- Modelled from the spec: `MAX_TASKS` is a compile-time configuration
constant (`config.rs` is not in `src/`); the spec only requires it to be at
most 32, and no claim below depends on its exact value. We fix 32. -/
def MAX_TASKS : Nat := 32

/-- Modelled from the spec: `MAX_STACK_SIZE` (words per task stack) is a
compile-time configuration constant (`config.rs` is not in `src/`). Its value
is not fixed by the spec; the claims below depend only on it being at least
32 words. We fix 512. -/
def MAX_STACK_SIZE : Nat := 512

/-- Modelled from the spec: `MAX_RESOURCES` is a compile-time configuration
constant (`config.rs` is not in `src/`). No claim below depends on its exact
value (any value at least 2 behaves the same); we fix 32. -/
def MAX_RESOURCES : Nat := 32

/-- `2^32`, the number of values of a `u32`. -/
def U32_LIMIT : Nat := 2 ^ 32

/-- Bitwise complement on `u32` (`!x` in Rust): XOR with the all-ones word. -/
def u32not (x : Nat) : Nat := (U32_LIMIT - 1) ^^^ (x % U32_LIMIT)

/-- The Rust cast `x as u32` applied to an `i32`: two's-complement
reinterpretation, i.e. the value modulo 2^32. -/
def i32_to_u32 (x : Int) : Nat := (x % (U32_LIMIT : Int)).toNat

/-- The Rust cast `x as i32` applied to a `u32`: two's-complement
reinterpretation into `[-2^31, 2^31)`. -/
def u32_to_i32 (x : Nat) : Int :=
  if x % U32_LIMIT < 2 ^ 31 then (x % U32_LIMIT : Int)
  else (x % U32_LIMIT : Int) - (U32_LIMIT : Int)

/-- Helper for `get_msb`: scan bit positions `k-1, k-2, …, 0` of `v` and
return the first (highest) set position, or 0 when none is set. -/
def msbAux (v : Nat) : Nat → Nat
  | 0 => 0
  | k + 1 => if v.testBit k then k else msbAux v k

/-- Modelled from the spec: `kernel/helper.rs` (the `get_msb` used by
`task_manager.rs`) is not in `src/`. The spec (§4.5) defines `msb(u32)` as the
index of the highest set bit, and `utils/arch.rs` shows the CLZ-based
algorithm (`32 - clz`, minus one when the input is nonzero). The helper flavour
returns a plain `usize`, which the saturating CLZ algorithm makes 0 on input 0
(the spec's "none" case, which the scheduler never reaches because the ready
set is meant to be nonempty). -/
def get_msb (val : Nat) : Nat := msbAux (val % U32_LIMIT) 32

/- ===================== Priority-ceiling stack (`system/pi_stack.rs`) ===== -/

/-- The sentinel ceiling `PI = -1` from `pi_stack.rs`. -/
def PI : Int := -1

/-- `PiStack` from `system/pi_stack.rs`: `top` points at the top of
`pi_stack`, a fixed `[i32; MAX_RESOURCES]` array (embedded as a `List Int`
whose length-`MAX_RESOURCES` invariant we track in the theorems), and
`system_ceiling` holds the ceiling of the highest locked resource. -/
structure PiStack where
  top : Nat
  pi_stack : List Int
  system_ceiling : Int
deriving DecidableEq, Repr

/-- `PiStack::new`: empty stack, every slot and the system ceiling at the
sentinel `PI`. -/
def PiStack.new : PiStack :=
  { top := 0, pi_stack := List.replicate MAX_RESOURCES PI, system_ceiling := PI }

/-- `PiStack::pop_stack`: error `Empty` when `top == 0`; otherwise decrement
`top` and load `system_ceiling` from the new top slot. The `none` result
models a panic of the array indexing (only possible when `top` exceeds the
array length, i.e. after failed pushes). -/
def PiStack.pop_stack (s : PiStack) : Option (PiStack × Except KernelError Unit) :=
  if s.top = 0 then some (s, .error .Empty)
  else
    match s.pi_stack[s.top - 1]? with
    | none => none
    | some v => some ({ s with top := s.top - 1, system_ceiling := v }, .ok ())

/-- `PiStack::top`: reads `pi_stack[self.top]` and casts it to `u32`. The
`none` result models the panic of an out-of-bounds read (the source itself
carries an `XXX does this check bounds` comment here). -/
def PiStack.top_u32 (s : PiStack) : Option Nat :=
  s.pi_stack[s.top]?.map i32_to_u32

/-- `PiStack::push_stack`: increments `top` first, then checks
`top >= MAX_RESOURCES` (returning `LimitExceeded` with `top` already
incremented), and only on success writes the ceiling into the new top slot and
into `system_ceiling`. -/
def PiStack.push_stack (s : PiStack) (ceiling : Nat) : PiStack × Except KernelError Unit :=
  let t := s.top + 1
  if MAX_RESOURCES ≤ t then ({ s with top := t }, .error .LimitExceeded)
  else
    ({ s with
        top := t
        pi_stack := s.pi_stack.set t (u32_to_i32 ceiling)
        system_ceiling := u32_to_i32 ceiling }, .ok ())

/-- Iterated `push_stack` of the same ceiling: `pushRepeat s c n` performs `n`
consecutive pushes starting from `s` and returns the state after all of them
together with the result of the `n`-th push (`ok` for `n = 0`). -/
def PiStack.pushRepeat (s : PiStack) (c : Nat) : Nat → PiStack × Except KernelError Unit
  | 0 => (s, .ok ())
  | n + 1 => ((s.pushRepeat c n).1).push_stack c

/-- States of the ceiling stack reachable from `new` by successful pushes and
successful pops (the reachability relation claim C9 quantifies over). -/
inductive PiReach : PiStack → Prop where
  | new : PiReach PiStack.new
  | push (s s' : PiStack) (c : Nat) :
      PiReach s → s.push_stack c = (s', Except.ok ()) → PiReach s'
  | pop (s s' : PiStack) :
      PiReach s → s.pop_stack = some (s', Except.ok ()) → PiReach s'

/-- The inductive invariant of reachable `PiStack` states: the backing array
keeps its length, `top` stays in bounds, `system_ceiling` mirrors the top
slot, and slot 0 (never written by `push_stack`, which writes slots from index
1 up) keeps the sentinel. -/
def PiInv (s : PiStack) : Prop :=
  s.pi_stack.length = MAX_RESOURCES ∧ s.top < MAX_RESOURCES ∧
  s.pi_stack[s.top]? = some s.system_ceiling ∧
  s.pi_stack[0]? = some PI

/- ===================== Task manager (`kernel/task_manager.rs`) =========== -/

/-- `TaskControlBlock` from `kernel/task_manager.rs`: a single thread's state,
holding the thread's current stack pointer. -/
structure TaskControlBlock where
  sp : Nat
deriving DecidableEq, Repr

/-- The `TaskManager` global (`all_tasks`) from `kernel/task_manager.rs`:
`RT` is the running task's id, `threads` the TCB table (`[Option<TCB>;
MAX_TASKS]`, embedded as a total function on indices — all accesses in the
source and in the claims use indices below `MAX_TASKS`), and `ATV`/`BTV` the
active/blocked task bitmaps (`u32`, embedded as `Nat` values below 2^32). -/
structure TaskManager where
  RT : Nat
  is_running : Bool
  threads : Nat → Option TaskControlBlock
  BTV : Nat
  ATV : Nat
  is_preemptive : Bool
  started : Bool

/-- The static initializer of the `all_tasks` global: idle bit set in `ATV`,
nothing blocked, not running, not started. -/
def initTaskManager : TaskManager :=
  { RT := 0, is_running := false, threads := fun _ => none, BTV := 0, ATV := 1,
    is_preemptive := false, started := false }

/-- The observable side effects of one privileged `preempt_call`: the values
written (if any) into the `os_curr_task` and `os_next_task` per-core slots,
and whether the PendSV software interrupt was raised. -/
structure PreemptEffect where
  os_curr_task : Option TaskControlBlock
  os_next_task : Option TaskControlBlock
  pendsv : Bool
deriving DecidableEq, Repr

/-- The absence of side effects: neither slot written, PendSV not raised. -/
def PreemptEffect.noEffect : PreemptEffect := ⟨none, none, false⟩

/-- `get_HT` from `task_manager.rs`: the highest-priority ready task,
`get_msb(ATV & !BTV)`. -/
def get_HT (h : TaskManager) : Nat := get_msb (h.ATV &&& u32not h.BTV)

/-- `preempt_call` from `task_manager.rs`: if the kernel is running and the
elected task `HT` differs from the running task `RT`, write `threads[RT]`
into `os_curr_task` when `started` (on the first dispatch set `started`
instead), update `RT := HT`, and if `threads[HT]` is allocated write it into
`os_next_task` and raise PendSV, else return `DoesNotExist`. Otherwise return
`Ok` with no side effect. -/
def preempt_call (h : TaskManager) :
    TaskManager × PreemptEffect × Except KernelError Unit :=
  if h.is_running then
    let HT := get_HT h
    if h.RT = HT then (h, PreemptEffect.noEffect, .ok ())
    else
      let osCurr : Option TaskControlBlock :=
        if h.started then h.threads h.RT else none
      let h1 := if h.started then h else { h with started := true }
      let h2 := { h1 with RT := HT }
      match h.threads HT with
      | some t => (h2, ⟨osCurr, some t, true⟩, .ok ())
      | none => (h2, ⟨osCurr, none, false⟩, .error .DoesNotExist)
  else (h, PreemptEffect.noEffect, .ok ())

/-- `preempt` from `task_manager.rs` branches on the privilege bit: when
privileged it calls `preempt_call` directly, otherwise it issues an SVC whose
handler re-enters the scheduler in privileged mode. We embed the privileged
path; the scheduling decision is `preempt_call` either way. -/
def preempt (h : TaskManager) :
    TaskManager × PreemptEffect × Except KernelError Unit :=
  preempt_call h

/-- `release` from `task_manager.rs`: OR the mask into `ATV` under the
critical section, then call `preempt()`. (The source discards the `Result` of
`preempt`; we return it for observation.) -/
def release (h : TaskManager) (tasks_mask : Nat) :
    TaskManager × PreemptEffect × Except KernelError Unit :=
  preempt { h with ATV := h.ATV ||| (tasks_mask % U32_LIMIT) }

/-- `create_tcb` from `task_manager.rs`: reject stacks shorter than 32 words,
otherwise build the synthetic exception frame (xPSR and PC words at the top of
the stack — the frame contents are not needed by any claim and are not
represented) and return a TCB whose `sp` is the address of word
`len - 16` of the stack; we embed the address as that word index. -/
def create_tcb (stackLen : Nat) (handler_pc : Nat) :
    Except KernelError TaskControlBlock :=
  if stackLen < 32 then .error .StackTooSmall
  else .ok { sp := stackLen - 16 }

/-- `insert_tcb` from `task_manager.rs`: reject `idx >= MAX_TASKS` with
`DoesNotExist`, otherwise store the TCB at slot `idx` (with no check whether
the slot is already occupied). -/
def insert_tcb (h : TaskManager) (idx : Nat) (tcb : TaskControlBlock) :
    TaskManager × Except KernelError Unit :=
  if MAX_TASKS ≤ idx then (h, .error .DoesNotExist)
  else
    ({ h with threads := fun j => if j = idx then some tcb else h.threads j },
     .ok ())

/-- `create_task` from `task_manager.rs`: it first takes
`&mut TASK_STACKS[priority]` — a fixed `[.; MAX_TASKS]` array, so for
`priority >= MAX_TASKS` this indexing panics (modelled by `none`) before any
range check runs — then builds the TCB and inserts it at `priority`. -/
def create_task (h : TaskManager) (priority : Nat) (handler_pc : Nat) :
    Option (TaskManager × Except KernelError Unit) :=
  if priority < MAX_TASKS then
    match create_tcb MAX_STACK_SIZE handler_pc with
    | .ok tcb => some (insert_tcb h priority tcb)
    | .error e => some (h, .error e)
  else none

/-- `init` from `task_manager.rs`: set the preemption mode, then create the
idle task at priority 0 (its entry is the wait-for-event loop; the entry
address is irrelevant here and embedded as 0). The source `.unwrap()`s the
result, so a creation failure is a panic (`none`). -/
def init (h : TaskManager) (is_preemptive : Bool) : Option TaskManager :=
  match create_task { h with is_preemptive := is_preemptive } 0 0 with
  | some (h1, Except.ok _) => some h1
  | some (_, Except.error _) => none
  | none => none

/-- `block_tasks` from `task_manager.rs`: OR the mask into `BTV`. -/
def block_tasks (h : TaskManager) (tasks_mask : Nat) : TaskManager :=
  { h with BTV := h.BTV ||| (tasks_mask % U32_LIMIT) }

/-- `unblock_tasks` from `task_manager.rs`: AND the complement of the mask
into `BTV`. -/
def unblock_tasks (h : TaskManager) (tasks_mask : Nat) : TaskManager :=
  { h with BTV := h.BTV &&& u32not tasks_mask }

/-- `task_exit` from `task_manager.rs`: clear bit `RT` of `ATV`
(`ATV &= !(1 << RT)` on `u32`), then call `preempt()`. -/
def task_exit (h : TaskManager) :
    TaskManager × PreemptEffect × Except KernelError Unit :=
  preempt { h with ATV := h.ATV &&& u32not (1 <<< h.RT) }

/-- The scheduler operations claim C2 quantifies over. -/
inductive SchedOp where
  | initOp (is_preemptive : Bool)
  | releaseOp (mask : Nat)
  | blockOp (mask : Nat)
  | unblockOp (mask : Nat)
  | exitOp

/-- The state after one scheduler operation (for `init`, whose creation of the
idle task cannot fail from any state, the panic branch keeps the state). -/
def applyOp (h : TaskManager) : SchedOp → TaskManager
  | .initOp p => match init h p with | some h1 => h1 | none => h
  | .releaseOp m => (release h m).1
  | .blockOp m => block_tasks h m
  | .unblockOp m => unblock_tasks h m
  | .exitOp => (task_exit h).1

/-- The idle-task invariant of claim C2: bit 0 of `ATV` set, bit 0 of `BTV`
clear. -/
def TMInv (h : TaskManager) : Prop :=
  h.ATV.testBit 0 = true ∧ h.BTV.testBit 0 = false

/-- Side conditions under which the scheduler operations preserve `TMInv`
(the amended claim C2): a `block_tasks` mask must not name the idle task, and
`task_exit` must not be invoked by the idle task. -/
def opOk (h : TaskManager) : SchedOp → Prop
  | .blockOp m => m.testBit 0 = false
  | .exitOp => h.RT ≠ 0
  | _ => True

/- ===================== PendSV / migration (`utils/arch.rs`) ============== -/

/-- The per-core `Scheduler` state used by `utils/arch.rs`. The struct itself
lives in `system/scheduler.rs`, which is not in `src/`; the fields are those
`arch.rs` reads and writes (`curr_tid`, `started`, `migrated_tid`,
`running_migrated`, `migrated_tasks`, `task_control_blocks`), plus the
`ATV`/`BTV` bitmaps the spec gives the scheduler (§3). The TCB table is a
fixed array embedded as a total function on indices. -/
structure Scheduler where
  curr_tid : Nat
  started : Bool
  ATV : Nat
  BTV : Nat
  migrated_tid : Nat
  running_migrated : Bool
  migrated_tasks : Nat
  task_control_blocks : Nat → Option TaskControlBlock

/-- Modelled from the spec: `Scheduler::get_next_tid` lives in the missing
`system/scheduler.rs`; §3 and §4.1 of the spec fix the election as
`msb(ATV & ~BTV)`. -/
def Scheduler.get_next_tid (s : Scheduler) : Nat :=
  get_msb (s.ATV &&& u32not s.BTV)

/-- The outcome of `get_next_tcb` in `utils/arch.rs`: the two updated
per-core states, the tids whose TCB had `save_context` called on it (listed
separately for the TCBs living in `t1`'s table and in `t2`'s table), and the
TCB the function returns (the one PendSV will `load_context`). -/
structure GNResult where
  t1 : Scheduler
  t2 : Scheduler
  saved_t1 : List Nat
  saved_t2 : List Nat
  ret : Option TaskControlBlock

/-- `get_next_tcb` from `utils/arch.rs` (`t1` is the interrupted core's state,
`t2` the other core's). With `migrated_tid > 0` and `running_migrated`, it
saves the migrated task's context into its TCB in `t2`'s table, clears that
task's `migrated_tasks` bit on `t2`, resets `migrated_tid`/`running_migrated`
on `t1`, and returns `t1`'s native current TCB. With `migrated_tid > 0` and
`!running_migrated`, it saves the native current task and returns the migrated
task's TCB from `t2`'s table, marking `running_migrated`. Otherwise it elects
`next_tid` and performs the ordinary handoff. `none` models the panic of the
source's `.unwrap()` calls on unallocated TCB slots. -/
def get_next_tcb (t1 t2 : Scheduler) : Option GNResult :=
  let curr_tid := t1.curr_tid
  if 0 < t1.migrated_tid then
    if t1.running_migrated then
      match t2.task_control_blocks t1.migrated_tid with
      | none => none
      | some _ =>
        some { t1 := { t1 with migrated_tid := 0, running_migrated := false }
               t2 := { t2 with migrated_tasks :=
                         t2.migrated_tasks &&& u32not (1 <<< t1.migrated_tid) }
               saved_t1 := []
               saved_t2 := [t1.migrated_tid]
               ret := t1.task_control_blocks curr_tid }
    else
      match t1.task_control_blocks curr_tid with
      | none => none
      | some _ =>
        some { t1 := { t1 with running_migrated := true }
               t2 := t2
               saved_t1 := [curr_tid]
               saved_t2 := []
               ret := t2.task_control_blocks t1.migrated_tid }
  else
    let next_tid := t1.get_next_tid
    if curr_tid ≠ next_tid ∨ t1.started = false then
      if t1.started then
        match t1.task_control_blocks curr_tid with
        | none => none
        | some _ =>
          some { t1 := { t1 with curr_tid := next_tid }
                 t2 := t2
                 saved_t1 := [curr_tid]
                 saved_t2 := []
                 ret := t1.task_control_blocks next_tid }
      else
        some { t1 := { t1 with started := true, curr_tid := next_tid }
               t2 := t2
               saved_t1 := []
               saved_t2 := []
               ret := t1.task_control_blocks next_tid }
    else
      some { t1 := t1, t2 := t2, saved_t1 := [], saved_t2 := [], ret := none }

/-- The outcome of one `PendSV_0` run: the updated per-core states, the
contexts saved, and the TCB whose `load_context` was invoked (if any). -/
structure PendSVResult where
  t1 : Scheduler
  t2 : Scheduler
  saved_t1 : List Nat
  saved_t2 : List Nat
  loaded : Option TaskControlBlock

/-- `PendSV_0` from `utils/arch.rs`: under the critical section and the
inter-core spinlock, resolve the next TCB via `get_next_tcb` and
`load_context` it when one was returned; `none` models a panic inside
`get_next_tcb`. -/
def PendSV_0 (t1 t2 : Scheduler) : Option PendSVResult :=
  match get_next_tcb t1 t2 with
  | none => none
  | some r =>
    some { t1 := r.t1, t2 := r.t2, saved_t1 := r.saved_t1,
           saved_t2 := r.saved_t2, loaded := r.ret }

/- ===================== Concrete states used by the claims ================ -/

/-- A state for claim C1: the kernel is running but the first dispatch has
not happened (`started = false`), only the idle task exists and is elected,
so `next = msb(ATV & ~BTV) = 0 = RT`. -/
def C1_state : TaskManager :=
  { RT := 0, is_running := true,
    threads := fun i => if i = 0 then some { sp := 496 } else none,
    BTV := 0, ATV := 1, is_preemptive := true, started := false }

/-- A started state for claim C1 in which the elected task equals the
running task (`next = 5 = RT`). -/
def C1_stateA : TaskManager :=
  { RT := 5, is_running := true,
    threads := fun i => if i = 0 ∨ i = 5 then some { sp := 496 } else none,
    BTV := 0, ATV := 33, is_preemptive := true, started := true }

/-- A started state for claim C1 in which the elected task (5) differs from
the running task (0). -/
def C1_stateB : TaskManager :=
  { RT := 0, is_running := true,
    threads := fun i => if i = 0 ∨ i = 5 then some { sp := 496 } else none,
    BTV := 0, ATV := 33, is_preemptive := true, started := true }

/-- A not-yet-started state for claim C1 in which the elected task (5)
differs from the running task (0). -/
def C1_stateC : TaskManager :=
  { RT := 0, is_running := true,
    threads := fun i => if i = 0 ∨ i = 5 then some { sp := 496 } else none,
    BTV := 0, ATV := 33, is_preemptive := true, started := false }

/-- A state for claim C3: running, started, non-preemptive, idle running,
task 5 allocated but not yet ready. -/
def C3_state : TaskManager :=
  { RT := 0, is_running := true,
    threads := fun i => if i = 0 ∨ i = 5 then some { sp := 496 } else none,
    BTV := 0, ATV := 1, is_preemptive := false, started := true }

/-- A state for claim C4: task 5 running alongside the ready idle task. -/
def C4_state : TaskManager :=
  { RT := 5, is_running := true,
    threads := fun i => if i = 0 ∨ i = 5 then some { sp := 496 } else none,
    BTV := 0, ATV := 33, is_preemptive := true, started := true }

/-- Core-local scheduler state for claim C7: task 4 (owned by the other
core) has been migrated here and is running (`migrated_tid = 4`,
`running_migrated`); the native current task is 1. -/
def C7_stateA : Scheduler :=
  { curr_tid := 1, started := true, ATV := 3, BTV := 0, migrated_tid := 4,
    running_migrated := true, migrated_tasks := 0,
    task_control_blocks := fun i => if i ≤ 2 then some { sp := 10 + i } else none }

/-- The owning core's scheduler state for claim C7: its `migrated_tasks`
bitmap records task 4 as migrated away, and its table holds task 4's TCB. -/
def C7_stateB : Scheduler :=
  { curr_tid := 0, started := true, ATV := 1, BTV := 0, migrated_tid := 0,
    running_migrated := false, migrated_tasks := 16,
    task_control_blocks := fun i => if i = 4 then some { sp := 99 } else some { sp := 7 } }

/- ===================== Shared helper lemmas ============================== -/

theorem u32limit_pos : 0 < U32_LIMIT := Nat.two_pow_pos 32

theorem u32not_lt (x : Nat) : u32not x < U32_LIMIT := by
  unfold u32not U32_LIMIT
  exact Nat.xor_lt_two_pow (Nat.sub_lt (Nat.two_pow_pos 32) one_pos)
    (Nat.mod_lt _ (Nat.two_pow_pos 32))

theorem and_u32not_lt (x y : Nat) : x &&& u32not y < U32_LIMIT :=
  Nat.lt_of_le_of_lt Nat.and_le_right (u32not_lt y)

theorem testBit_u32not (x i : Nat) (h : i < 32) :
    (u32not x).testBit i = !(x.testBit i) := by
  unfold u32not U32_LIMIT
  rw [Nat.testBit_xor, Nat.testBit_two_pow_sub_one, Nat.testBit_mod_two_pow]
  simp [h]

theorem testBit_mod_u32 (x i : Nat) (h : i < 32) :
    (x % U32_LIMIT).testBit i = x.testBit i := by
  unfold U32_LIMIT
  rw [Nat.testBit_mod_two_pow]
  simp [h]

theorem testBit_ne_zero {x i : Nat} (h : x.testBit i = true) : x ≠ 0 := by
  intro hx
  rw [hx, Nat.zero_testBit] at h
  exact Bool.false_ne_true h

theorem msbAux_testBit (k : Nat) :
    ∀ v : Nat, v ≠ 0 → v < 2 ^ k → v.testBit (msbAux v k) = true := by
  induction k with
  | zero =>
    intro v h0 hlt
    omega
  | succ k ih =>
    intro v h0 hlt
    unfold msbAux
    by_cases hb : v.testBit k = true
    · simp [hb]
    · have hb' : v.testBit k = false := by
        cases hv : v.testBit k
        · rfl
        · exact absurd hv hb
      have hdiv : v / 2 ^ k < 2 := by
        rw [Nat.div_lt_iff_lt_mul (Nat.two_pow_pos k)]
        rw [pow_succ] at hlt
        omega
      have hne1 : v / 2 ^ k % 2 ≠ 1 := by
        intro h1
        rw [Nat.testBit_to_div_mod, h1] at hb'
        simp at hb'
      have hvk : v < 2 ^ k := by
        have h2 : v / 2 ^ k = 0 ∨ v / 2 ^ k = 1 :=
          Nat.le_one_iff_eq_zero_or_eq_one.mp (Nat.lt_succ_iff.mp hdiv)
        have h0' : v / 2 ^ k = 0 := by
          cases h2 with
          | inl h => exact h
          | inr h => exact absurd (by rw [h]) hne1
        exact (Nat.div_eq_zero_iff (Nat.two_pow_pos k)).mp h0'
      simpa [hb'] using ih v h0 hvk

theorem get_msb_testBit_self (v : Nat) (h0 : v ≠ 0) (hlt : v < U32_LIMIT) :
    v.testBit (get_msb v) = true := by
  unfold get_msb
  rw [Nat.mod_eq_of_lt hlt]
  exact msbAux_testBit 32 v h0 hlt

/- ===================== Ceiling-stack lemmas ============================== -/

theorem push_stack_ok (s : PiStack) (c : Nat) (h : s.top + 1 < MAX_RESOURCES) :
    s.push_stack c =
      ({ s with
          top := s.top + 1
          pi_stack := s.pi_stack.set (s.top + 1) (u32_to_i32 c)
          system_ceiling := u32_to_i32 c }, Except.ok ()) := by
  simp only [PiStack.push_stack]
  rw [if_neg (by omega)]

theorem push_stack_err (s : PiStack) (c : Nat) (h : MAX_RESOURCES ≤ s.top + 1) :
    s.push_stack c =
      ({ s with top := s.top + 1 }, Except.error KernelError.LimitExceeded) := by
  simp only [PiStack.push_stack]
  rw [if_pos h]

theorem pop_stack_ok (s : PiStack) (v : Int) (h0 : s.top ≠ 0)
    (hv : s.pi_stack[s.top - 1]? = some v) :
    s.pop_stack =
      some ({ s with top := s.top - 1, system_ceiling := v }, Except.ok ()) := by
  simp only [PiStack.pop_stack]
  rw [if_neg h0, hv]

theorem pi_inv_new : PiInv PiStack.new := by
  refine ⟨rfl, by decide, rfl, rfl⟩

theorem pi_inv_push (s s' : PiStack) (c : Nat) (hinv : PiInv s)
    (hok : s.push_stack c = (s', Except.ok ())) : PiInv s' := by
  obtain ⟨hlen, htop, hmirror, hzero⟩ := hinv
  by_cases h : s.top + 1 < MAX_RESOURCES
  · rw [push_stack_ok s c h] at hok
    obtain ⟨hs', -⟩ := Prod.mk.injEq .. ▸ hok
    subst hs'
    have hlt : s.top + 1 < s.pi_stack.length := by rw [hlen]; omega
    refine ⟨by simp [hlen], by show s.top + 1 < MAX_RESOURCES; omega, ?_, ?_⟩
    · simpa using List.getElem?_set_eq_of_lt (u32_to_i32 c) hlt
    · have hne : s.top + 1 ≠ 0 := by omega
      simpa [List.getElem?_set_ne hne] using hzero
  · rw [push_stack_err s c (by omega)] at hok
    cases Prod.mk.injEq .. ▸ hok |>.2

theorem pi_inv_pop (s s' : PiStack) (hinv : PiInv s)
    (hok : s.pop_stack = some (s', Except.ok ())) : PiInv s' := by
  obtain ⟨hlen, htop, hmirror, hzero⟩ := hinv
  by_cases h0 : s.top = 0
  · simp [PiStack.pop_stack, h0] at hok
  · cases hv : s.pi_stack[s.top - 1]? with
    | none =>
      simp [PiStack.pop_stack, h0, hv] at hok
    | some v =>
      rw [pop_stack_ok s v h0 hv] at hok
      simp only [Option.some.injEq, Prod.mk.injEq] at hok
      obtain ⟨hs', -⟩ := hok
      subst hs'
      exact ⟨hlen, by show s.top - 1 < MAX_RESOURCES; omega, hv, hzero⟩

theorem piReach_inv (s : PiStack) (hs : PiReach s) : PiInv s := by
  induction hs with
  | new => exact pi_inv_new
  | push s₁ s₂ c _ hok ih => exact pi_inv_push s₁ s₂ c ih hok
  | pop s₁ s₂ _ hok ih => exact pi_inv_pop s₁ s₂ ih hok

theorem pushRepeat_succ (s : PiStack) (c n : Nat) :
    s.pushRepeat c (n + 1) = ((s.pushRepeat c n).1).push_stack c := rfl

theorem pushRepeat_le (c : Nat) :
    ∀ n, n ≤ MAX_RESOURCES - 1 →
    (PiStack.new.pushRepeat c n).1.top = n ∧
    (PiStack.new.pushRepeat c n).2 = Except.ok () ∧
    (PiStack.new.pushRepeat c n).1.pi_stack.length = MAX_RESOURCES := by
  intro n
  induction n with
  | zero => intro h; exact ⟨rfl, rfl, rfl⟩
  | succ n ih =>
    intro h
    have hMR : MAX_RESOURCES = 32 := rfl
    have hn : n ≤ MAX_RESOURCES - 1 := by omega
    obtain ⟨htop, -, hlen⟩ := ih hn
    have hcond : (PiStack.new.pushRepeat c n).1.top + 1 < MAX_RESOURCES := by
      rw [htop]; omega
    rw [pushRepeat_succ, push_stack_ok _ c hcond]
    refine ⟨by show (PiStack.new.pushRepeat c n).1.top + 1 = n + 1; rw [htop], rfl,
      by show ((PiStack.new.pushRepeat c n).1.pi_stack.set _ _).length = MAX_RESOURCES;
         rw [List.length_set]; exact hlen⟩

/- ===================== Claims C8, C9, C10 ================================ -/

set_option maxRecDepth 8192 in
/-- C8, counterexample: the claim says that starting from the empty stack,
`MAX_RESOURCES` consecutive `push_stack` calls all succeed; in fact the
`MAX_RESOURCES`-th push returns `LimitExceeded` (because `push_stack`
pre-increments `top` and then rejects `top >= MAX_RESOURCES`, only
`MAX_RESOURCES - 1` pushes fit). -/
theorem C8_capacity_cex :
    (PiStack.new.pushRepeat 3 MAX_RESOURCES).2 =
      Except.error KernelError.LimitExceeded := by
  rfl

/-- C8, amended: starting from the empty stack, the first `MAX_RESOURCES - 1`
consecutive `push_stack` calls succeed, and the `MAX_RESOURCES`-th returns
`LimitExceeded`: the capacity of the ceiling stack is `MAX_RESOURCES - 1`
simultaneously locked ceilings, not `MAX_RESOURCES`. -/
theorem C8_capacity_amended :
    (∀ c n, n ≤ MAX_RESOURCES - 1 →
      (PiStack.new.pushRepeat c n).2 = Except.ok ()) ∧
    (∀ c, (PiStack.new.pushRepeat c MAX_RESOURCES).2 =
      Except.error KernelError.LimitExceeded) := by
  constructor
  · intro c n hn
    exact (pushRepeat_le c n hn).2.1
  · intro c
    have hMR : MAX_RESOURCES = 32 := rfl
    obtain ⟨htop, -, -⟩ := pushRepeat_le c (MAX_RESOURCES - 1) le_rfl
    rw [show MAX_RESOURCES = MAX_RESOURCES - 1 + 1 from rfl, pushRepeat_succ,
      push_stack_err _ c (by rw [htop]; omega)]

/-- C8, witness for the amended theorem at concrete inputs. -/
theorem C8_capacity_amended_witness :
    (PiStack.new.pushRepeat 5 3).2 = Except.ok () ∧
    (PiStack.new.pushRepeat 5 MAX_RESOURCES).2 =
      Except.error KernelError.LimitExceeded :=
  ⟨C8_capacity_amended.1 5 3 (by decide), C8_capacity_amended.2 5⟩

/-- C9: at every state reachable by `new`, successful `push_stack` and
successful `pop_stack`, `system_ceiling` equals the ceiling at the top of the
stack, is the sentinel `-1` when the stack is empty, and `top()` returns
`system_ceiling` cast to `u32` (`0xFFFFFFFF` on the empty stack) from an
in-bounds slot (it never reads past the real top). -/
theorem C9_ceiling_inv (s : PiStack) (hs : PiReach s) :
    s.pi_stack[s.top]? = some s.system_ceiling ∧
    (s.top = 0 → s.system_ceiling = PI) ∧
    s.top_u32 = some (i32_to_u32 s.system_ceiling) ∧
    (s.top = 0 → s.top_u32 = some (U32_LIMIT - 1)) := by
  obtain ⟨hlen, htop, hmirror, hzero⟩ := piReach_inv s hs
  have hempty : s.top = 0 → s.system_ceiling = PI := by
    intro h0
    rw [h0, hzero] at hmirror
    exact (Option.some.injEq .. ▸ hmirror).symm
  have htopval : s.top_u32 = some (i32_to_u32 s.system_ceiling) := by
    unfold PiStack.top_u32
    rw [hmirror, Option.map_some']
  refine ⟨hmirror, hempty, htopval, ?_⟩
  intro h0
  rw [htopval, hempty h0]
  rfl

/-- C9, witness: the invariant instantiated at the empty stack. -/
theorem C9_ceiling_inv_witness :
    PiStack.new.pi_stack[PiStack.new.top]? = some PiStack.new.system_ceiling ∧
    (PiStack.new.top = 0 → PiStack.new.system_ceiling = PI) ∧
    PiStack.new.top_u32 = some (i32_to_u32 PiStack.new.system_ceiling) ∧
    (PiStack.new.top = 0 → PiStack.new.top_u32 = some (U32_LIMIT - 1)) :=
  C9_ceiling_inv PiStack.new PiReach.new

/-- C10: when `push_stack` fails with `LimitExceeded` (from a full stack:
`top = MAX_RESOURCES - 1` with the backing array at its fixed length), the
stack is left modified: `top` has been incremented past the last valid slot,
while `pi_stack` and `system_ceiling` are unchanged; a `top()` after the
failed push indexes out of bounds (a panic), and a `pop_stack` merely
decrements `top` back without removing any element. -/
theorem C10_failed_push (s : PiStack) (c : Nat)
    (hlen : s.pi_stack.length = MAX_RESOURCES)
    (htop : s.top = MAX_RESOURCES - 1) :
    (s.push_stack c).2 = Except.error KernelError.LimitExceeded ∧
    (s.push_stack c).1.top = MAX_RESOURCES ∧
    (s.push_stack c).1.pi_stack = s.pi_stack ∧
    (s.push_stack c).1.system_ceiling = s.system_ceiling ∧
    (s.push_stack c).1.top_u32 = none ∧
    (∀ v, s.pi_stack[MAX_RESOURCES - 1]? = some v →
      (s.push_stack c).1.pop_stack =
        some ({ (s.push_stack c).1 with
                  top := MAX_RESOURCES - 1
                  system_ceiling := v }, Except.ok ())) := by
  have hMR : MAX_RESOURCES = 32 := rfl
  have hpush := push_stack_err s c (by rw [htop, hMR])
  rw [hpush]
  refine ⟨rfl, by show s.top + 1 = MAX_RESOURCES; rw [htop, hMR], rfl, rfl, ?_, ?_⟩
  · unfold PiStack.top_u32
    have hnone : s.pi_stack[s.top + 1]? = none :=
      List.getElem?_eq_none (by rw [hlen, htop, hMR])
    simp [hnone]
  · intro v hv
    have hv' : s.pi_stack[s.top + 1 - 1]? = some v := by
      rw [show s.top + 1 - 1 = MAX_RESOURCES - 1 from by rw [htop, hMR]]
      exact hv
    have hp := pop_stack_ok { s with top := s.top + 1 } v
      (by show s.top + 1 ≠ 0; simp)
      (by show s.pi_stack[s.top + 1 - 1]? = some v; exact hv')
    rw [hp, show s.top + 1 - 1 = MAX_RESOURCES - 1 from by rw [htop, hMR]]

/-- C10, witness at a concrete full stack. -/
theorem C10_failed_push_witness :
    (PiStack.push_stack { top := 31, pi_stack := List.replicate 32 (5 : Int), system_ceiling := 5 } 9).2 = Except.error KernelError.LimitExceeded ∧
    (PiStack.push_stack { top := 31, pi_stack := List.replicate 32 (5 : Int), system_ceiling := 5 } 9).1.top = MAX_RESOURCES ∧
    (PiStack.push_stack { top := 31, pi_stack := List.replicate 32 (5 : Int), system_ceiling := 5 } 9).1.top_u32 = none := by
  have h := C10_failed_push
    { top := 31, pi_stack := List.replicate 32 (5 : Int), system_ceiling := 5 }
    9 (by rfl) (by rfl)
  exact ⟨h.1, h.2.1, h.2.2.2.2.1⟩

/- ===================== Task-manager lemmas =============================== -/

theorem preempt_call_bitmaps (h : TaskManager) :
    (preempt_call h).1.ATV = h.ATV ∧ (preempt_call h).1.BTV = h.BTV := by
  simp only [preempt_call]
  by_cases hr : h.is_running
  · simp only [hr, if_true]
    by_cases he : h.RT = get_HT h
    · simp [he]
    · simp only [he, if_false]
      cases ht : h.threads (get_HT h) with
      | some t => by_cases hs : h.started <;> simp [ht, hs]
      | none => by_cases hs : h.started <;> simp [ht, hs]
  · simp [hr]

theorem preempt_call_RT_eq (h : TaskManager) (hr : h.is_running = true)
    (hne : h.RT ≠ get_HT h) : (preempt_call h).1.RT = get_HT h := by
  simp only [preempt_call, hr, if_true]
  simp only [hne, if_false]
  cases ht : h.threads (get_HT h) with
  | some t => by_cases hs : h.started <;> simp [ht, hs]
  | none => by_cases hs : h.started <;> simp [ht, hs]

theorem preempt_call_flag (h : TaskManager) (b : Bool) :
    (preempt_call { h with is_preemptive := b }).2 = (preempt_call h).2 := by
  simp only [preempt_call]
  have hHT : get_HT { h with is_preemptive := b } = get_HT h := rfl
  rw [hHT]
  by_cases hr : h.is_running
  · simp only [hr, if_true]
    by_cases he : h.RT = get_HT h
    · simp [he]
    · simp only [he, if_false]
      cases ht : h.threads (get_HT h) with
      | some t => by_cases hs : h.started <;> simp [ht, hs]
      | none => by_cases hs : h.started <;> simp [ht, hs]
  · simp [hr]

/- ===================== Claims C1 to C7 =================================== -/

/-- C1, counterexample: at `C1_state`, `next = msb(ATV & ~BTV)` equals the
running task while the first dispatch has not yet happened, so the claim's
"otherwise" branch applies and promises that the TCB slots are written and
PendSV is raised; the code's `preempt_call` instead returns without any side
effect (its guard is `RT != HT` alone, independent of `started`). -/
theorem C1_schedule_cex :
    get_HT C1_state = C1_state.RT ∧ C1_state.started = false ∧
    preempt_call C1_state = (C1_state, PreemptEffect.noEffect, Except.ok ()) :=
  ⟨rfl, rfl, rfl⟩

/-- C1, amended: in privileged context with the kernel running,
`preempt_call` computes `next = msb(ATV & ~BTV)`; if `next = RT` it returns
without side effect regardless of `started`; if `next ≠ RT` and `started`, it
stores the current task's TCB as outgoing and `next`'s TCB as incoming and
raises PendSV; if `next ≠ RT` before the first dispatch, it sets `started`,
stores only the incoming TCB and raises PendSV (no outgoing TCB is stored).
In all cases the current task id becomes `next`. -/
theorem C1_schedule_amended (h : TaskManager) (hrun : h.is_running = true) :
    (get_HT h = h.RT → preempt_call h = (h, PreemptEffect.noEffect, Except.ok ())) ∧
    (∀ c n, get_HT h ≠ h.RT → h.started = true →
      h.threads h.RT = some c → h.threads (get_HT h) = some n →
      preempt_call h =
        ({ h with RT := get_HT h },
         { os_curr_task := some c, os_next_task := some n, pendsv := true },
         Except.ok ())) ∧
    (∀ n, get_HT h ≠ h.RT → h.started = false →
      h.threads (get_HT h) = some n →
      preempt_call h =
        ({ h with RT := get_HT h, started := true },
         { os_curr_task := none, os_next_task := some n, pendsv := true },
         Except.ok ())) := by
  refine ⟨?_, ?_, ?_⟩
  · intro he
    simp [preempt_call, hrun, he.symm]
  · intro c n hne hs hc hn
    have hne' : ¬ (h.RT = get_HT h) := fun hh => hne hh.symm
    simp [preempt_call, hrun, hne', hn, hs, hc]
  · intro n hne hs hn
    have hne' : ¬ (h.RT = get_HT h) := fun hh => hne hh.symm
    simp [preempt_call, hrun, hne', hn, hs]

/-- C1, witness for the amended theorem: the three branches at concrete
states. -/
theorem C1_schedule_amended_witness :
    preempt_call C1_stateA = (C1_stateA, PreemptEffect.noEffect, Except.ok ()) ∧
    preempt_call C1_stateB =
      ({ C1_stateB with RT := 5 },
       { os_curr_task := some { sp := 496 }, os_next_task := some { sp := 496 },
         pendsv := true }, Except.ok ()) ∧
    preempt_call C1_stateC =
      ({ C1_stateC with RT := 5, started := true },
       { os_curr_task := none, os_next_task := some { sp := 496 },
         pendsv := true }, Except.ok ()) := by
  refine ⟨(C1_schedule_amended C1_stateA rfl).1 rfl, ?_, ?_⟩
  · exact (C1_schedule_amended C1_stateB rfl).2.1 { sp := 496 } { sp := 496 }
      (by decide) rfl rfl rfl
  · exact (C1_schedule_amended C1_stateC rfl).2.2 { sp := 496 }
      (by decide) rfl rfl

/-- C2, counterexample: the idle-bit invariant (bit 0 of ATV set, bit 0 of
BTV clear) is not preserved by every scheduler operation: `block_tasks` with
a mask naming task 0 sets bit 0 of BTV. -/
theorem C2_invariant_cex :
    TMInv initTaskManager ∧
    ¬ TMInv (applyOp initTaskManager (SchedOp.blockOp 1)) := by
  constructor
  · exact ⟨rfl, rfl⟩
  · intro hinv
    exact absurd hinv.2 (by decide)

/-- C2, amended: the idle-bit invariant holds initially and is preserved by
`init`, `release` and `unblock_tasks` unconditionally, by `block_tasks`
whenever the mask does not name the idle task, and by `task_exit` whenever
the exiting task is not idle; under the invariant the ready set
`ATV & ~BTV` is never zero. -/
theorem C2_invariant_amended :
    TMInv initTaskManager ∧
    (∀ (h : TaskManager) (op : SchedOp),
      TMInv h → opOk h op → TMInv (applyOp h op)) ∧
    (∀ h : TaskManager, TMInv h → h.ATV &&& u32not h.BTV ≠ 0) := by
  refine ⟨⟨rfl, rfl⟩, ?_, ?_⟩
  · rintro h op ⟨ha, hb⟩ hok
    cases op with
    | initOp p => exact ⟨ha, hb⟩
    | releaseOp m =>
      obtain ⟨hA, hB⟩ :=
        preempt_call_bitmaps { h with ATV := h.ATV ||| (m % U32_LIMIT) }
      constructor
      · show (preempt_call { h with ATV := h.ATV ||| (m % U32_LIMIT) }).1.ATV.testBit 0 = true
        rw [hA]
        show (h.ATV ||| (m % U32_LIMIT)).testBit 0 = true
        rw [Nat.testBit_or, ha, Bool.true_or]
      · show (preempt_call { h with ATV := h.ATV ||| (m % U32_LIMIT) }).1.BTV.testBit 0 = false
        rw [hB]
        exact hb
    | blockOp m =>
      refine ⟨ha, ?_⟩
      show (h.BTV ||| (m % U32_LIMIT)).testBit 0 = false
      rw [Nat.testBit_or, hb, testBit_mod_u32 m 0 (by omega), hok, Bool.or_false]
    | unblockOp m =>
      refine ⟨ha, ?_⟩
      show (h.BTV &&& u32not m).testBit 0 = false
      rw [Nat.testBit_and, hb, Bool.false_and]
    | exitOp =>
      obtain ⟨hA, hB⟩ :=
        preempt_call_bitmaps { h with ATV := h.ATV &&& u32not (1 <<< h.RT) }
      constructor
      · show (preempt_call { h with ATV := h.ATV &&& u32not (1 <<< h.RT) }).1.ATV.testBit 0 = true
        rw [hA]
        show (h.ATV &&& u32not (1 <<< h.RT)).testBit 0 = true
        rw [Nat.testBit_and, ha, testBit_u32not _ 0 (by omega), Nat.one_shiftLeft,
          Nat.testBit_two_pow_of_ne hok]
        rfl
      · show (preempt_call { h with ATV := h.ATV &&& u32not (1 <<< h.RT) }).1.BTV.testBit 0 = false
        rw [hB]
        exact hb
  · rintro h ⟨ha, hb⟩
    apply testBit_ne_zero (i := 0)
    rw [Nat.testBit_and, ha, testBit_u32not _ 0 (by omega), hb]
    rfl

/-- C2, witness for the amended theorem at concrete inputs. -/
theorem C2_invariant_amended_witness :
    TMInv (applyOp initTaskManager (SchedOp.blockOp 2)) ∧
    initTaskManager.ATV &&& u32not initTaskManager.BTV ≠ 0 :=
  ⟨C2_invariant_amended.2.1 initTaskManager (SchedOp.blockOp 2)
      C2_invariant_amended.1 (by show (2 : Nat).testBit 0 = false; decide),
   C2_invariant_amended.2.2 initTaskManager C2_invariant_amended.1⟩

/-- C3, counterexample: with the scheduler not preemptive (`is_preemptive =
false`), releasing task 5 from the running idle task nonetheless raises
PendSV: `release` calls `preempt()` unconditionally, so preemption is
triggered by `release` itself rather than deferred. -/
theorem C3_release_cex :
    C3_state.is_preemptive = false ∧
    (release C3_state 32).2.1.pendsv = true :=
  ⟨rfl, rfl⟩

/-- C3, amended: `release(mask)` ORs the mask into ATV under the critical
section and then calls `schedule()` (`preempt`) unconditionally; the
`is_preemptive` flag is never consulted, so the scheduling decision is not
deferred when the scheduler is not preemptive — the whole observable outcome
of `release` is independent of `is_preemptive`. -/
theorem C3_release_amended (h : TaskManager) (mask : Nat) :
    release h mask = preempt_call { h with ATV := h.ATV ||| (mask % U32_LIMIT) } ∧
    (release h mask).1.ATV = h.ATV ||| (mask % U32_LIMIT) ∧
    (∀ b, (release { h with is_preemptive := b } mask).2 =
          (release h mask).2) :=
  ⟨rfl,
   (preempt_call_bitmaps { h with ATV := h.ATV ||| (mask % U32_LIMIT) }).1,
   fun b => preempt_call_flag { h with ATV := h.ATV ||| (mask % U32_LIMIT) } b⟩

/-- C4: after `task_exit()` by a running non-idle task `p` (kernel running,
idle ready and unblocked), bit `p` of ATV is 0 and the current task id no
longer equals `p`. -/
theorem C4_task_exit (h : TaskManager) (hrun : h.is_running = true)
    (hidleA : h.ATV.testBit 0 = true) (hidleB : h.BTV.testBit 0 = false)
    (hrt0 : h.RT ≠ 0) (hrt32 : h.RT < 32) :
    (task_exit h).1.ATV.testBit h.RT = false ∧
    (task_exit h).1.RT ≠ h.RT := by
  obtain ⟨hA, hB⟩ :=
    preempt_call_bitmaps { h with ATV := h.ATV &&& u32not (1 <<< h.RT) }
  have hbitRT : (h.ATV &&& u32not (1 <<< h.RT)).testBit h.RT = false := by
    rw [Nat.testBit_and, testBit_u32not _ _ hrt32, Nat.one_shiftLeft,
      Nat.testBit_two_pow_self]
    simp
  have hm0 : ((h.ATV &&& u32not (1 <<< h.RT)) &&& u32not h.BTV).testBit 0 = true := by
    rw [Nat.testBit_and, Nat.testBit_and, hidleA,
      testBit_u32not _ 0 (by omega), testBit_u32not _ 0 (by omega),
      Nat.one_shiftLeft, Nat.testBit_two_pow_of_ne hrt0, hidleB]
    rfl
  have hmne : (h.ATV &&& u32not (1 <<< h.RT)) &&& u32not h.BTV ≠ 0 :=
    testBit_ne_zero hm0
  have hmlt : (h.ATV &&& u32not (1 <<< h.RT)) &&& u32not h.BTV < U32_LIMIT :=
    and_u32not_lt _ _
  have hmsb := get_msb_testBit_self _ hmne hmlt
  have hmRT : ((h.ATV &&& u32not (1 <<< h.RT)) &&& u32not h.BTV).testBit h.RT = false := by
    rw [Nat.testBit_and, hbitRT, Bool.false_and]
  have hne : h.RT ≠ get_HT { h with ATV := h.ATV &&& u32not (1 <<< h.RT) } := by
    have hgh : get_HT { h with ATV := h.ATV &&& u32not (1 <<< h.RT) } =
        get_msb ((h.ATV &&& u32not (1 <<< h.RT)) &&& u32not h.BTV) := rfl
    rw [hgh]
    intro heq
    rw [← heq] at hmsb
    rw [hmsb] at hmRT
    simp at hmRT
  constructor
  · show (preempt_call { h with ATV := h.ATV &&& u32not (1 <<< h.RT) }).1.ATV.testBit h.RT = false
    rw [hA]
    exact hbitRT
  · show (preempt_call { h with ATV := h.ATV &&& u32not (1 <<< h.RT) }).1.RT ≠ h.RT
    rw [preempt_call_RT_eq { h with ATV := h.ATV &&& u32not (1 <<< h.RT) } hrun hne]
    exact fun hh => hne hh.symm

/-- C4, witness at a concrete state with task 5 running. -/
theorem C4_task_exit_witness :
    (task_exit C4_state).1.ATV.testBit C4_state.RT = false ∧
    (task_exit C4_state).1.RT ≠ C4_state.RT :=
  C4_task_exit C4_state rfl rfl rfl (by decide) (by decide)

/-- C5: `create_task` with `priority ≥ MAX_TASKS` does not return
`DoesNotExist`: it panics (modelled by `none`) at the `TASK_STACKS[priority]`
indexing, before any range check runs; the `DoesNotExist` range check does
exist in `insert_tcb` but is unreachable on this path. -/
theorem C5_create_task_oob (h : TaskManager) (priority pc : Nat)
    (hge : MAX_TASKS ≤ priority) :
    create_task h priority pc = none ∧
    (∀ tcb, (insert_tcb h priority tcb).2 =
      Except.error KernelError.DoesNotExist) := by
  constructor
  · unfold create_task
    rw [if_neg (by omega)]
  · intro tcb
    unfold insert_tcb
    rw [if_pos hge]

/-- C5, witness at `priority = MAX_TASKS`. -/
theorem C5_create_task_oob_witness :
    create_task initTaskManager 32 0 = none ∧
    (insert_tcb initTaskManager 32 { sp := 1 }).2 =
      Except.error KernelError.DoesNotExist := by
  have h := C5_create_task_oob initTaskManager 32 0 (by decide)
  exact ⟨h.1, h.2 { sp := 1 }⟩

/-- C6, counterexample: inserting a TCB at the already-occupied priority 5
succeeds (`Ok`) and replaces the existing TCB instead of being rejected:
`insert_tcb` has no occupancy check. -/
theorem C6_priority_cex :
    (insert_tcb initTaskManager 5 { sp := 100 }).2 = Except.ok () ∧
    (insert_tcb initTaskManager 5 { sp := 100 }).1.threads 5 = some { sp := 100 } ∧
    (insert_tcb (insert_tcb initTaskManager 5 { sp := 100 }).1 5 { sp := 200 }).2 =
      Except.ok () ∧
    (insert_tcb (insert_tcb initTaskManager 5 { sp := 100 }).1 5 { sp := 200 }).1.threads 5 =
      some { sp := 200 } :=
  ⟨rfl, rfl, rfl, rfl⟩

/-- C6, amended: a `create_task` call whose priority slot is already occupied
succeeds and overwrites the existing task's TCB (and its initial stack
frame); priority uniqueness is not enforced by the kernel. -/
theorem C6_priority_amended (h : TaskManager) (p pc : Nat)
    (tcb0 : TaskControlBlock) (hlt : p < MAX_TASKS)
    (hocc : h.threads p = some tcb0) :
    create_task h p pc = some (insert_tcb h p { sp := MAX_STACK_SIZE - 16 }) ∧
    (insert_tcb h p { sp := MAX_STACK_SIZE - 16 }).2 = Except.ok () ∧
    (insert_tcb h p { sp := MAX_STACK_SIZE - 16 }).1.threads p =
      some { sp := MAX_STACK_SIZE - 16 } := by
  refine ⟨?_, ?_, ?_⟩
  · unfold create_task create_tcb
    rw [if_pos hlt, if_neg (by decide : ¬ (MAX_STACK_SIZE < 32))]
  · unfold insert_tcb
    rw [if_neg (by omega)]
  · unfold insert_tcb
    rw [if_neg (by omega)]
    simp

/-- C6, witness: re-creating priority 5 over an occupied slot. -/
theorem C6_priority_amended_witness :
    create_task (insert_tcb initTaskManager 5 { sp := 100 }).1 5 7 =
      some (insert_tcb (insert_tcb initTaskManager 5 { sp := 100 }).1 5
        { sp := MAX_STACK_SIZE - 16 }) ∧
    (insert_tcb (insert_tcb initTaskManager 5 { sp := 100 }).1 5
      { sp := MAX_STACK_SIZE - 16 }).2 = Except.ok () ∧
    (insert_tcb (insert_tcb initTaskManager 5 { sp := 100 }).1 5
      { sp := MAX_STACK_SIZE - 16 }).1.threads 5 =
      some { sp := MAX_STACK_SIZE - 16 } :=
  C6_priority_amended (insert_tcb initTaskManager 5 { sp := 100 }).1 5 7
    { sp := 100 } (by decide) rfl

/-- C7: when PendSV runs on a core whose state has `migrated_tid > 0` and
`running_migrated = true`, it saves the migrated task's context (its TCB in
the owning core's table), clears the owning core's `migrated_tasks` bit for
that task, resets `migrated_tid` to 0 and `running_migrated` to false, and
reloads the core's native current task's TCB. -/
theorem C7_unmigrate (t1 t2 : Scheduler) (m c : TaskControlBlock)
    (hmig : 0 < t1.migrated_tid) (htid : t1.migrated_tid < 32)
    (hrm : t1.running_migrated = true)
    (hm : t2.task_control_blocks t1.migrated_tid = some m)
    (hc : t1.task_control_blocks t1.curr_tid = some c) :
    PendSV_0 t1 t2 =
      some { t1 := { t1 with migrated_tid := 0, running_migrated := false }
             t2 := { t2 with migrated_tasks :=
                       t2.migrated_tasks &&& u32not (1 <<< t1.migrated_tid) }
             saved_t1 := []
             saved_t2 := [t1.migrated_tid]
             loaded := some c } ∧
    (t2.migrated_tasks &&& u32not (1 <<< t1.migrated_tid)).testBit
      t1.migrated_tid = false := by
  constructor
  · simp only [PendSV_0, get_next_tcb, hmig, if_true, hrm]
    simp [hm, hc]
  · rw [Nat.testBit_and, testBit_u32not _ _ htid, Nat.one_shiftLeft,
      Nat.testBit_two_pow_self]
    simp

/-- C7, witness: un-migration of task 4 at concrete two-core states. -/
theorem C7_unmigrate_witness :
    PendSV_0 C7_stateA C7_stateB =
      some { t1 := { C7_stateA with migrated_tid := 0, running_migrated := false }
             t2 := { C7_stateB with migrated_tasks :=
                       C7_stateB.migrated_tasks &&& u32not (1 <<< C7_stateA.migrated_tid) }
             saved_t1 := []
             saved_t2 := [C7_stateA.migrated_tid]
             loaded := some { sp := 11 } } ∧
    (C7_stateB.migrated_tasks &&& u32not (1 <<< C7_stateA.migrated_tid)).testBit
      C7_stateA.migrated_tid = false :=
  C7_unmigrate C7_stateA C7_stateB { sp := 99 } { sp := 11 }
    (by decide) (by decide) rfl rfl rfl

end Harsark
